import Mathlib

/-!
Verification of the asynchronous query facade of the readless repository
(src/rag_chatbot.py and src/moby_dick_chatbot.py): chain initialization,
the chat handler, the pure animation-frame function, and the `respond`
generator that polls a background worker while yielding animated frames.
-/

namespace Readless

/-- Abstract environment of one chatbot process: whether `OPENAI_API_KEY`
is set, whether the Chroma DB directory exists, whether chain construction
(the `try` block of `initialize_chatbot`) succeeds or raises, and what
`rag_chain.invoke` does on each question: `.ok r` is a normal return whose
response dict may (`some text`) or may not (`none`) carry a `result` key,
`.error e` is a raised exception with text `e`. -/
structure ChatbotEnv where
  apiKeySet : Bool
  dbExists : Bool
  chainBuild : Except String Unit
  invokeResult : String → Except String (Option String)

/-- `initialize_chatbot()` of src/rag_chatbot.py lines 27-96, as a function of
the entry value `rc` of the module-global `rag_chain`: returns the Bool result
together with the value of `rag_chain` on exit. The two guard failures return
early without touching the global; an exception inside the `try` block sets it
to `None`; success stores the constructed chain (modelled `some ()`). -/
def initialize_chatbot (env : ChatbotEnv) (rc : Option Unit) : Bool × Option Unit :=
  if !env.apiKeySet then (false, rc)
  else if !env.dbExists then (false, rc)
  else
    match env.chainBuild with
    | .ok _ => (true, some ())
    | .error _ => (false, none)

/-- The `try/except` around `rag_chain.invoke({ query: question })` shared by
src/rag_chatbot.py lines 106-118 and src/moby_dick_chatbot.py lines 88-100:
on a normal return, `response.get` with the fallback answer; on an exception
`e`, the f-string interpolating the exception text. -/
def invoke_answer (env : ChatbotEnv) (question : String) : String :=
  match env.invokeResult question with
  | .ok response => response.getD "Sorry, I could not find an answer."
  | .error e => "An error occurred: " ++ e

/-- `chat_with_bill(question, history)` of src/rag_chatbot.py lines 98-118, as
a function of the entry value of the global `rag_chain`: returns the answer
string and the exit value of `rag_chain`. When the chain is `None` it retries
`initialize_chatbot` and, on failure, returns the unavailability message. -/
def chat_with_bill (env : ChatbotEnv) (rc : Option Unit) (question : String)
    (history : List (String × String)) : String × Option Unit :=
  match rc with
  | some c => (invoke_answer env question, some c)
  | none =>
    match initialize_chatbot env none with
    | (true, rc') => (invoke_answer env question, rc')
    | (false, rc') =>
      ("Analysis system is not available. Please check the console for errors (e.g., missing API key or vector database).", rc')

/-- `chat_with_moby_dick(question, history)` of src/moby_dick_chatbot.py lines
80-100: identical to `chat_with_bill` except for the not-initialized message. -/
def chat_with_moby_dick (env : ChatbotEnv) (rc : Option Unit) (question : String)
    (history : List (String × String)) : String × Option Unit :=
  match rc with
  | some c => (invoke_answer env question, some c)
  | none =>
    match initialize_chatbot env none with
    | (true, rc') => (invoke_answer env question, rc')
    | (false, rc') =>
      ("Chatbot is not initialized. Please check the console for errors (e.g., missing API key or vector store).", rc')

/-- `get_next_animation_frame(counter)` of src/rag_chatbot.py lines 221-236:
the label followed by `counter % 8` dots while in the growing half of the
cycle, `8 - counter % 8` dots in the shrinking half. -/
def get_next_animation_frame (counter : Nat) : String :=
  let base_text := "Analyzing your question"
  let cycle_position := counter % 8
  if cycle_position ≤ 4 then
    base_text ++ String.mk (List.replicate cycle_position '.')
  else
    base_text ++ String.mk (List.replicate (8 - cycle_position) '.')

/-- The number of dots of a frame (the dot-count of the spec), read off the same
formula as `get_next_animation_frame`. -/
def frameDotCount (counter : Nat) : Nat :=
  if counter % 8 ≤ 4 then counter % 8 else 8 - counter % 8

/-- C2: every animation frame is the fixed label followed by its dot-count
many dots, the dot-count is at most 4, the frame function has period 8, and
the dot-counts over one cycle t = 0..7 are 0,1,2,3,4,3,2,1. -/
theorem animation_frame_waveform (t : Nat) :
    get_next_animation_frame t =
      "Analyzing your question" ++ String.mk (List.replicate (frameDotCount t) '.') ∧
    frameDotCount t ≤ 4 ∧
    get_next_animation_frame (t + 8) = get_next_animation_frame t ∧
    (List.range 8).map frameDotCount = [0, 1, 2, 3, 4, 3, 2, 1] := by
  refine ⟨?_, ?_, ?_, by decide⟩
  · unfold get_next_animation_frame frameDotCount
    by_cases h : t % 8 ≤ 4 <;> simp [h]
  · have hlt : t % 8 < 8 := Nat.mod_lt t (by norm_num)
    unfold frameDotCount
    by_cases h : t % 8 ≤ 4 <;> simp [h] <;> omega
  · unfold get_next_animation_frame
    simp [Nat.add_mod_right]

/-- `result_container` of src/rag_chatbot.py line 247: `response` and `done`. -/
structure ResultContainer where
  response : Option String
  done : Bool
deriving DecidableEq

/-- The `get_llm_response` closure of src/rag_chatbot.py lines 249-251: call
`chat_with_bill(message, chat_history[:-1])`, store the response into the
container, set `done = True`. Returns the container it produced together with
the exit value of the global `rag_chain`. -/
def get_llm_response (env : ChatbotEnv) (rc : Option Unit) (message : String)
    (chat_history : List (String × String)) : ResultContainer × Option Unit :=
  let r := chat_with_bill env rc message chat_history
  ({ response := some r.1, done := true }, r.2)

/-- One observable step of the `respond` generator of src/rag_chatbot.py lines
238-269: a `yield` of the current transcript, the start of the worker thread
on a fresh `result_container`, or the resolution of the turn (final answer
stored, poll loop exited, container about to die). -/
inductive SessionEvent where
  | emit : List (String × String) → SessionEvent
  | launch : SessionEvent
  | resolve : SessionEvent
deriving DecidableEq

/-- Python `str.strip()` as used in `if not message.strip():`
(src/rag_chatbot.py line 239): the string with leading and trailing
whitespace removed. -/
def pyStrip (s : String) : String :=
  String.mk (((s.data.dropWhile Char.isWhitespace).reverse.dropWhile
    Char.isWhitespace).reverse)

/-- The poll loop of `respond` (lines 259-265): starting from tick counter `c`,
run `k` iterations, each incrementing the counter, computing the frame,
overwriting the last transcript turn with it and yielding. -/
def animationEmits (m : String) (hist : List (String × String)) :
    Nat → Nat → List SessionEvent
  | _, 0 => []
  | c, k + 1 =>
    SessionEvent.emit (hist ++ [(m, get_next_animation_frame (c + 1))])
      :: animationEmits m hist (c + 1) k

/-- The event trace of one call `respond(message, chat_history)` of
src/rag_chatbot.py lines 238-269. `k` is the number of poll-loop iterations
before `done` is observed true (a scheduler parameter: the worker finishes at
some unspecified real time). A blank message returns without yielding. The
call of the worker receives `chat_history[:-1]`, i.e. the history before the newly
appended turn; the final answer stored is the response of the worker. -/
def respondEvents (env : ChatbotEnv) (rc : Option Unit) (message : String)
    (chat_history : List (String × String)) (k : Nat) : List SessionEvent :=
  if pyStrip message = "" then []
  else
    SessionEvent.emit (chat_history ++ [(message, "Analyzing your question")])
      :: SessionEvent.launch
      :: (animationEmits message chat_history 0 k
          ++ [SessionEvent.emit (chat_history ++
                [(message, (chat_with_bill env rc message chat_history).1)]),
              SessionEvent.resolve])

/-- The transcript content of an `emit` event. -/
def emitContent : SessionEvent → Option (List (String × String))
  | .emit h => some h
  | _ => none

/-- The transcripts yielded by a trace, in order. -/
def emissions (tr : List SessionEvent) : List (List (String × String)) :=
  tr.filterMap emitContent

/-- Whether an event is a worker-thread start. -/
def isLaunch : SessionEvent → Bool
  | .launch => true
  | _ => false

/-- Number of worker threads started along a trace. -/
def workersLaunched (tr : List SessionEvent) : Nat :=
  tr.countP isLaunch

/-- Number of live `result_container`s after one event: `launch` creates one,
`resolve` destroys one, a `yield` changes nothing. -/
def stepActive (c : Nat) : SessionEvent → Nat
  | .launch => c + 1
  | .resolve => c - 1
  | .emit _ => c

/-- A whole query session: the submitted questions in order, each with its
scheduler parameter `k`. Gradio runs the `respond` generator of each
submission to completion before the next begins; the global `rag_chain` and
the mutated `chat_history` thread through, a blank submission changing
neither. -/
def sessionEvents (env : ChatbotEnv) :
    Option Unit → List (String × String) → List (String × Nat) → List SessionEvent
  | _, _, [] => []
  | rc, hist, (m, k) :: rest =>
    respondEvents env rc m hist k ++
      (if pyStrip m = "" then sessionEvents env rc hist rest
       else
        sessionEvents env (chat_with_bill env rc m hist).2
          (hist ++ [(m, (chat_with_bill env rc m hist).1)]) rest)

@[simp] theorem emissions_nil : emissions [] = [] := rfl

@[simp] theorem emissions_cons_emit (h : List (String × String))
    (tr : List SessionEvent) :
    emissions (SessionEvent.emit h :: tr) = h :: emissions tr := rfl

@[simp] theorem emissions_cons_launch (tr : List SessionEvent) :
    emissions (SessionEvent.launch :: tr) = emissions tr := rfl

@[simp] theorem emissions_cons_resolve (tr : List SessionEvent) :
    emissions (SessionEvent.resolve :: tr) = emissions tr := rfl

theorem emissions_append (l₁ l₂ : List SessionEvent) :
    emissions (l₁ ++ l₂) = emissions l₁ ++ emissions l₂ :=
  List.filterMap_append l₁ l₂ emitContent

theorem emissions_animationEmits (m : String) (hist : List (String × String)) :
    ∀ k c, emissions (animationEmits m hist c k) =
      (List.range k).map (fun i => hist ++ [(m, get_next_animation_frame (c + i + 1))])
  | 0, c => rfl
  | k + 1, c => by
    rw [animationEmits, emissions_cons_emit, emissions_animationEmits m hist k (c + 1),
      List.range_succ_eq_map, List.map_cons, List.map_map]
    refine congrArg₂ _ (by norm_num) (List.map_congr_left fun i _ => ?_)
    have hc : c + 1 + i + 1 = c + (i + 1) + 1 := by omega
    simp [Function.comp_apply, hc]

/-- An environment where everything works and the provider answers every
question with a fixed text. -/
def envOk : ChatbotEnv :=
  { apiKeySet := true, dbExists := true, chainBuild := .ok ()
    invokeResult := fun _ => .ok (some "The Pequod is the whaling ship of Captain Ahab.") }

/-- An environment whose provider call raises an exception with text boom. -/
def envBoom : ChatbotEnv :=
  { apiKeySet := true, dbExists := true, chainBuild := .ok ()
    invokeResult := fun _ => .error "boom" }

/-- An environment whose provider call raises an exception with text zap. -/
def envZap : ChatbotEnv :=
  { apiKeySet := true, dbExists := true, chainBuild := .ok ()
    invokeResult := fun _ => .error "zap" }

/-- An environment with no API key set. -/
def envNoKey : ChatbotEnv :=
  { apiKeySet := false, dbExists := true, chainBuild := .ok ()
    invokeResult := fun _ => .ok (some "unused") }

theorem emissions_respondEvents (env : ChatbotEnv) (rc : Option Unit)
    (m : String) (hist : List (String × String)) (k : Nat) (h : ¬ pyStrip m = "") :
    emissions (respondEvents env rc m hist k) =
      (hist ++ [(m, "Analyzing your question")]) ::
        ((List.range k).map (fun i => hist ++ [(m, get_next_animation_frame (i + 1))])
          ++ [hist ++ [(m, (chat_with_bill env rc m hist).1)]]) := by
  unfold respondEvents
  rw [if_neg h]
  simp [emissions_append, emissions_animationEmits]

theorem countP_isLaunch_animationEmits (m : String) (hist : List (String × String)) :
    ∀ k c, (animationEmits m hist c k).countP isLaunch = 0
  | 0, _ => rfl
  | k + 1, c => by
    rw [animationEmits]
    simpa [List.countP_cons, isLaunch] using
      countP_isLaunch_animationEmits m hist k (c + 1)

/-- C9: the history argument is dead in both chat handlers: any two history
values produce identical calls and identical results (only the question is
sent to the provider). -/
theorem answer_independent_of_history (env : ChatbotEnv) (rc : Option Unit)
    (q : String) (h₁ h₂ : List (String × String)) :
    chat_with_bill env rc q h₁ = chat_with_bill env rc q h₂ ∧
    chat_with_moby_dick env rc q h₁ = chat_with_moby_dick env rc q h₂ :=
  ⟨rfl, rfl⟩

/-- C6: whether the provider call returns or raises, the worker ends with
`done = true` and the container holding the answer of the handler; hence the poll
loop, which repeats exactly while `done` is false, ends the turn with a
`resolve` as the last event of the trace. -/
theorem worker_always_completes (env : ChatbotEnv) (rc : Option Unit)
    (m : String) (hist : List (String × String)) (k : Nat) :
    (get_llm_response env rc m hist).1.done = true ∧
    (get_llm_response env rc m hist).1.response = some (chat_with_bill env rc m hist).1 ∧
    (¬ pyStrip m = "" → (respondEvents env rc m hist k).getLast? = some SessionEvent.resolve) := by
  refine ⟨rfl, rfl, fun h => ?_⟩
  unfold respondEvents
  rw [if_neg h]
  rw [show SessionEvent.emit (hist ++ [(m, "Analyzing your question")])
      :: SessionEvent.launch
      :: (animationEmits m hist 0 k
          ++ [SessionEvent.emit (hist ++ [(m, (chat_with_bill env rc m hist).1)]),
              SessionEvent.resolve]) =
      (SessionEvent.emit (hist ++ [(m, "Analyzing your question")])
        :: SessionEvent.launch
        :: (animationEmits m hist 0 k
            ++ [SessionEvent.emit (hist ++ [(m, (chat_with_bill env rc m hist).1)])]))
        ++ [SessionEvent.resolve] from by simp]
  exact List.getLast?_concat _

/-- C6 witness: a concrete failing provider still completes the container. -/
theorem worker_always_completes_witness :
    (get_llm_response envBoom (some ()) "q" []).1.done = true ∧
    (respondEvents envBoom (some ()) "q" [] 1).getLast? = some SessionEvent.resolve :=
  ⟨(worker_always_completes envBoom (some ()) "q" [] 1).1,
   (worker_always_completes envBoom (some ()) "q" [] 1).2.2 (by decide)⟩

/-- C3: once the request completes, the last emitted transcript of the turn
has its last turn overwritten with exactly the stored worker result, and this
final emission is the last one: no animation frame follows it. -/
theorem completed_request_stores_result (env : ChatbotEnv) (rc : Option Unit)
    (m : String) (hist : List (String × String)) (k : Nat) (h : ¬ pyStrip m = "") :
    (emissions (respondEvents env rc m hist k)).getLast? =
      some (hist ++ [(m, (chat_with_bill env rc m hist).1)]) := by
  rw [emissions_respondEvents env rc m hist k h, ← List.cons_append,
    List.getLast?_concat]

/-- C3 witness: a successful provider call on question What is the Pequod?
ends with the transcript pair carrying the text returned by the provider. -/
theorem completed_request_stores_result_witness :
    (emissions (respondEvents envOk (some ()) "What is the Pequod?" [] 2)).getLast? =
      some [("What is the Pequod?", "The Pequod is the whaling ship of Captain Ahab.")] := by
  have := completed_request_stores_result envOk (some ()) "What is the Pequod?" [] 2
    (by decide)
  simpa [envOk, chat_with_bill, invoke_answer] using this

/-- C4: the turn emits exactly `k + 2` transcripts: the placeholder, then the
animation frames in strictly increasing tick order (the emission at position
`i + 1` carries the frame of tick `i + 1`), and the final answer is the last
emission of the turn. -/
theorem frames_in_tick_order_final_last (env : ChatbotEnv) (rc : Option Unit)
    (m : String) (hist : List (String × String)) (k : Nat) (h : ¬ pyStrip m = "") :
    (emissions (respondEvents env rc m hist k)).length = k + 2 ∧
    (∀ i, i < k →
      (emissions (respondEvents env rc m hist k))[i + 1]? =
        some (hist ++ [(m, get_next_animation_frame (i + 1))])) ∧
    (emissions (respondEvents env rc m hist k))[k + 1]? =
      some (hist ++ [(m, (chat_with_bill env rc m hist).1)]) := by
  rw [emissions_respondEvents env rc m hist k h]
  refine ⟨by simp, fun i hi => ?_, ?_⟩
  · rw [List.getElem?_cons_succ, List.getElem?_append_left (by simpa using hi),
      List.getElem?_map, List.getElem?_range hi]
    rfl
  · rw [List.getElem?_cons_succ, List.getElem?_append_right (by simp),
      List.length_map, List.length_range, Nat.sub_self]
    rfl

/-- C4 witness: with two poll iterations the emissions are the placeholder,
frame 1, frame 2, then the final answer, in that order. -/
theorem frames_in_tick_order_final_last_witness :
    (emissions (respondEvents envOk (some ()) "q" [] 2)).length = 4 ∧
    (emissions (respondEvents envOk (some ()) "q" [] 2))[1]? =
      some [("q", get_next_animation_frame 1)] ∧
    (emissions (respondEvents envOk (some ()) "q" [] 2))[3]? =
      some [("q", "The Pequod is the whaling ship of Captain Ahab.")] := by
  obtain ⟨h1, h2, h3⟩ := frames_in_tick_order_final_last envOk (some ()) "q" [] 2 (by decide)
  refine ⟨h1, by simpa using h2 0 (by norm_num), ?_⟩
  simpa [envOk, chat_with_bill, invoke_answer] using h3

/-- C5: a question that is empty or whitespace-only is a no-op: the generator
yields nothing (the transcript is left as it was), no turn is appended and no
worker thread is started. -/
theorem empty_question_noop (env : ChatbotEnv) (rc : Option Unit)
    (m : String) (hist : List (String × String)) (k : Nat) (h : pyStrip m = "") :
    respondEvents env rc m hist k = [] ∧
    emissions (respondEvents env rc m hist k) = [] ∧
    workersLaunched (respondEvents env rc m hist k) = 0 ∧
    (emissions (respondEvents env rc m hist k)).getLastD hist = hist := by
  unfold respondEvents
  rw [if_pos h]
  exact ⟨rfl, rfl, rfl, rfl⟩

/-- C5 witness: a whitespace-only submission leaves a one-turn transcript
untouched. -/
theorem empty_question_noop_witness :
    respondEvents envOk (some ()) "  " [("a", "b")] 3 = [] ∧
    (emissions (respondEvents envOk (some ()) "  " [("a", "b")] 3)).getLastD
      [("a", "b")] = [("a", "b")] := by
  obtain ⟨h1, _, _, h4⟩ := empty_question_noop envOk (some ()) "  " [("a", "b")] 3
    (by decide)
  exact ⟨h1, h4⟩

/-- C7: a non-blank question first yields the transcript extended by exactly
one new turn holding the question and the placeholder answer, the very next
event is the launch of the worker on the fresh container, exactly one worker
is started, every transcript emitted during the turn still has exactly that
one extra turn, and the tick counter restarts at 0 (the first poll iteration
shows the frame of tick 0 + 1). -/
theorem new_question_starts_single_turn (env : ChatbotEnv) (rc : Option Unit)
    (m : String) (hist : List (String × String)) (k : Nat) (h : ¬ pyStrip m = "") :
    (respondEvents env rc m hist k).head? =
      some (SessionEvent.emit (hist ++ [(m, "Analyzing your question")])) ∧
    (respondEvents env rc m hist k)[1]? = some SessionEvent.launch ∧
    workersLaunched (respondEvents env rc m hist k) = 1 ∧
    (∀ tr ∈ emissions (respondEvents env rc m hist k), tr.length = hist.length + 1) ∧
    (0 < k → (emissions (respondEvents env rc m hist k))[1]? =
      some (hist ++ [(m, get_next_animation_frame (0 + 1))])) := by
  refine ⟨?_, ?_, ?_, ?_, fun hk => ?_⟩
  · unfold respondEvents
    rw [if_neg h]
    rfl
  · unfold respondEvents
    rw [if_neg h]
    simp
  · unfold respondEvents
    rw [if_neg h]
    simp [workersLaunched, List.countP_cons, List.countP_append, isLaunch,
      countP_isLaunch_animationEmits]
  · intro tr htr
    rw [emissions_respondEvents env rc m hist k h] at htr
    simp only [List.mem_cons, List.mem_append, List.mem_map, List.mem_range,
      List.mem_singleton] at htr
    rcases htr with rfl | ⟨⟨i, _, rfl⟩ | rfl | h0⟩ <;> simp_all
  · rw [emissions_respondEvents env rc m hist k h, List.getElem?_cons_succ,
      List.getElem?_append_left (by simpa using hk), List.getElem?_map,
      List.getElem?_range hk]
    rfl

/-- C7 witness: concrete first emission, launch event, single worker and
first frame of tick 1. -/
theorem new_question_starts_single_turn_witness :
    (respondEvents envOk (some ()) "q" [] 1).head? =
      some (SessionEvent.emit [("q", "Analyzing your question")]) ∧
    (respondEvents envOk (some ()) "q" [] 1)[1]? = some SessionEvent.launch ∧
    workersLaunched (respondEvents envOk (some ()) "q" [] 1) = 1 ∧
    (emissions (respondEvents envOk (some ()) "q" [] 1))[1]? =
      some [("q", get_next_animation_frame 1)] := by
  obtain ⟨h1, h2, h3, _, h5⟩ := new_question_starts_single_turn envOk (some ()) "q" [] 1
    (by decide)
  exact ⟨by simpa using h1, h2, h3, by simpa using h5 (by norm_num)⟩

/-- The largest number of live containers reached at any point while running
`tr` with `c` containers live at the start. -/
def maxActive : List SessionEvent → Nat → Nat
  | [], c => c
  | e :: tr, c => max c (maxActive tr (stepActive c e))

theorem le_maxActive : ∀ (tr : List SessionEvent) (c : Nat), c ≤ maxActive tr c
  | [], c => le_refl c
  | _ :: _, _ => le_max_left _ _

theorem foldl_take_le_maxActive :
    ∀ (tr : List SessionEvent) (n c : Nat),
      (tr.take n).foldl stepActive c ≤ maxActive tr c
  | [], n, c => by simp [maxActive]
  | _ :: _, 0, c => le_max_left _ _
  | e :: tr, n + 1, c => by
    rw [List.take_succ_cons, List.foldl_cons]
    exact le_trans (foldl_take_le_maxActive tr n (stepActive c e)) (le_max_right _ _)

theorem maxActive_append :
    ∀ (l₁ l₂ : List SessionEvent) (c : Nat),
      maxActive (l₁ ++ l₂) c = max (maxActive l₁ c) (maxActive l₂ (l₁.foldl stepActive c))
  | [], l₂, c => by
    simp only [List.nil_append, List.foldl_nil, maxActive]
    exact (Nat.max_eq_right (le_maxActive l₂ c)).symm
  | e :: l₁, l₂, c => by
    simp only [List.cons_append, maxActive, List.foldl_cons, List.append_eq]
    rw [maxActive_append l₁ l₂ (stepActive c e), Nat.max_assoc]

theorem foldl_stepActive_animationEmits (m : String) (hist : List (String × String)) :
    ∀ k c a, (animationEmits m hist c k).foldl stepActive a = a
  | 0, _, _ => rfl
  | k + 1, c, a => by
    rw [animationEmits, List.foldl_cons]
    exact foldl_stepActive_animationEmits m hist k (c + 1) a

theorem maxActive_animationEmits (m : String) (hist : List (String × String)) :
    ∀ k c a, maxActive (animationEmits m hist c k) a = a
  | 0, _, _ => rfl
  | k + 1, c, a => by
    rw [animationEmits]
    simp only [maxActive, stepActive]
    rw [maxActive_animationEmits m hist k (c + 1) a, Nat.max_self]

theorem foldl_respondEvents (env : ChatbotEnv) (rc : Option Unit)
    (m : String) (hist : List (String × String)) (k : Nat) :
    (respondEvents env rc m hist k).foldl stepActive 0 = 0 := by
  unfold respondEvents
  by_cases hb : pyStrip m = ""
  · rw [if_pos hb]
    rfl
  · rw [if_neg hb]
    simp only [List.foldl_cons, List.foldl_append, stepActive,
      foldl_stepActive_animationEmits]
    rfl

theorem maxActive_respondEvents (env : ChatbotEnv) (rc : Option Unit)
    (m : String) (hist : List (String × String)) (k : Nat) :
    maxActive (respondEvents env rc m hist k) 0 ≤ 1 := by
  unfold respondEvents
  by_cases hb : pyStrip m = ""
  · rw [if_pos hb]
    exact Nat.zero_le 1
  · rw [if_neg hb]
    simp only [maxActive, stepActive, maxActive_append,
      maxActive_animationEmits, foldl_stepActive_animationEmits]
    simp [maxActive, stepActive]

theorem workersLaunched_append (l₁ l₂ : List SessionEvent) :
    workersLaunched (l₁ ++ l₂) = workersLaunched l₁ + workersLaunched l₂ := by
  simp [workersLaunched, List.countP_append]

theorem workersLaunched_respondEvents (env : ChatbotEnv) (rc : Option Unit)
    (m : String) (hist : List (String × String)) (k : Nat) :
    workersLaunched (respondEvents env rc m hist k) =
      if pyStrip m = "" then 0 else 1 := by
  unfold respondEvents
  by_cases hb : pyStrip m = "" <;>
    simp [hb, workersLaunched, List.countP_cons, List.countP_append, isLaunch,
      countP_isLaunch_animationEmits]

theorem maxActive_sessionEvents (env : ChatbotEnv) :
    ∀ (queries : List (String × Nat)) (rc : Option Unit)
      (hist : List (String × String)),
      maxActive (sessionEvents env rc hist queries) 0 ≤ 1
  | [], _, _ => Nat.zero_le 1
  | (m, k) :: rest, rc, hist => by
    simp only [sessionEvents]
    rw [maxActive_append, foldl_respondEvents]
    by_cases hb : pyStrip m = ""
    · rw [if_pos hb]
      exact max_le (maxActive_respondEvents env rc m hist k)
        (maxActive_sessionEvents env rest rc hist)
    · rw [if_neg hb]
      exact max_le (maxActive_respondEvents env rc m hist k)
        (maxActive_sessionEvents env rest _ _)

theorem workersLaunched_sessionEvents (env : ChatbotEnv) :
    ∀ (queries : List (String × Nat)) (rc : Option Unit)
      (hist : List (String × String)),
      workersLaunched (sessionEvents env rc hist queries) =
        (queries.filter fun q => !(pyStrip q.1 == "")).length
  | [], _, _ => rfl
  | (m, k) :: rest, rc, hist => by
    simp only [sessionEvents]
    rw [workersLaunched_append, workersLaunched_respondEvents]
    by_cases hb : pyStrip m = "" <;>
      simp [hb, List.filter_cons, workersLaunched_sessionEvents env rest] <;> omega

/-- C8: single flight: along every prefix of the event trace of a whole session at
most one `result_container` is live (each `respond` invocation creates one at
worker launch and destroys it at resolution, and runs to completion before
the next submission), and the number of workers ever started equals the
number of non-blank submissions — one fresh container per in-flight turn,
never two overlapping. -/
theorem single_flight_invariant (env : ChatbotEnv) (rc : Option Unit)
    (hist : List (String × String)) (queries : List (String × Nat)) (n : Nat) :
    ((sessionEvents env rc hist queries).take n).foldl stepActive 0 ≤ 1 ∧
    workersLaunched (sessionEvents env rc hist queries) =
      (queries.filter fun q => !(pyStrip q.1 == "")).length :=
  ⟨le_trans (foldl_take_le_maxActive _ n 0) (maxActive_sessionEvents env queries rc hist),
   workersLaunched_sessionEvents env queries rc hist⟩

/-- C10: from the only reachable entry state of a call (`rag_chain = None`:
the module start and the retry in `chat_with_bill` both call it so), the
initializer returns true iff it leaves the chain set; whenever it returns
false the chain is left `None`, so a later question re-attempts
initialization and answers with the unavailability message instead of
invoking a half-constructed chain. -/
theorem initialize_chatbot_atomic (env : ChatbotEnv) :
    ((initialize_chatbot env none).1 = true ↔ (initialize_chatbot env none).2 ≠ none) ∧
    ((initialize_chatbot env none).1 = false → (initialize_chatbot env none).2 = none) ∧
    (∀ q hist, (initialize_chatbot env none).1 = false →
      chat_with_bill env none q hist =
        ("Analysis system is not available. Please check the console for errors (e.g., missing API key or vector database).", none)) := by
  obtain ⟨key, db, build, inv⟩ := env
  cases key <;> cases db <;> rcases build with b | e <;>
    simp [initialize_chatbot, chat_with_bill]

/-- C10 witness: with the API key missing, initialization fails leaving the
chain unset and a question gets the unavailability answer. -/
theorem initialize_chatbot_atomic_witness :
    (initialize_chatbot envNoKey none).2 = none ∧
    chat_with_bill envNoKey none "q" [] =
      ("Analysis system is not available. Please check the console for errors (e.g., missing API key or vector database).", none) :=
  ⟨(initialize_chatbot_atomic envNoKey).2.1 (by decide),
   (initialize_chatbot_atomic envNoKey).2.2 "q" [] (by decide)⟩

/-- C1 counterexample: two provider failures that differ only in the raised
exception text store different final answers into the last turn of the transcript,
each being the prefix An error occurred: followed by the raw exception text
verbatim — so the stored answer is not one fixed user-facing string and the
raw exception text is surfaced. -/
theorem error_text_surfaced_counterexample :
    (emissions (respondEvents envBoom (some ()) "q" [] 1)).getLast? =
      some [("q", "An error occurred: " ++ "boom")] ∧
    (emissions (respondEvents envZap (some ()) "q" [] 1)).getLast? =
      some [("q", "An error occurred: " ++ "zap")] ∧
    "An error occurred: " ++ "boom" ≠ "An error occurred: " ++ "zap" := by
  refine ⟨?_, ?_, by decide⟩ <;> decide

/-- C1 (amended): for a question whose provider call raises with exception
text `e` on an initialized chain, the final answer stored into the
last turn of the transcript is the fixed prefix An error occurred: followed by the
raw exception text — the exception text is surfaced to the user as part of
that message, in both chatbots. -/
theorem provider_error_message_format (env : ChatbotEnv)
    (m : String) (hist : List (String × String)) (k : Nat) (e : String)
    (hm : ¬ pyStrip m = "") (he : env.invokeResult m = .error e) :
    (emissions (respondEvents env (some ()) m hist k)).getLast? =
      some (hist ++ [(m, "An error occurred: " ++ e)]) ∧
    (chat_with_moby_dick env (some ()) m hist).1 = "An error occurred: " ++ e := by
  constructor
  · rw [emissions_respondEvents env (some ()) m hist k hm, ← List.cons_append,
      List.getLast?_concat]
    simp [chat_with_bill, invoke_answer, he]
  · simp [chat_with_moby_dick, invoke_answer, he]

/-- C1 (amended) witness: the exception text boom ends up verbatim in the
final answer of the last turn. -/
theorem provider_error_message_format_witness :
    (emissions (respondEvents envBoom (some ()) "hi" [] 1)).getLast? =
      some [("hi", "An error occurred: " ++ "boom")] :=
  (provider_error_message_format envBoom "hi" [] 1 "boom" (by decide) rfl).1

end Readless
